import Mathlib

/-!
# Verification of the wm.lvh.lol media-gallery backend

A shallow embedding in Lean 4 of the parts of the repository that the
specification's testable properties talk about:

* the S3 adapter (`s3.js`): public-URL construction (`getS3Url`), whose
  endpoint handling mirrors JavaScript's `String.replace` (first occurrence
  only);
* the Express upload endpoint (`server.js`, `POST /api/upload`): the multer
  middleware (file filter, size limit, disk/memory storage), the password
  gate, metadata parsing, per-file processing under `Promise.all`, and
  MediaRecord construction;
* the delete endpoint (`DELETE /api/files/:filename`) and the update endpoint
  (`PUT /api/files/:filename`);
* the migration utility (`migrate-to-s3.js`): per-record migrate / verify /
  update steps, dry-run and verify-only modes, with an explicit effect trace
  of filesystem and S3 operations.

Strings are modelled as `List Char` (`Str`); timestamps as `Nat`; the
behaviour of external processes (ffmpeg/ffprobe), the S3 transport, and the
filesystem is supplied through explicit environment records so that every
control-flow branch of the source is represented.
-/

namespace WmGallery

/-- Strings from the JavaScript source, modelled as lists of characters. -/
abbrev Str := List Char

/-- Lower-case a string, modelling JavaScript `String.toLowerCase` on the
ASCII characters that occur in file extensions. -/
def toLower (s : Str) : Str := s.map Char.toLower

/-- Does `pat` occur as a contiguous substring of `s`?  (Helper used to state
when JavaScript's `String.replace` leaves a string unchanged.) -/
def containsSub (pat : Str) : Str → Bool
  | [] => pat.isEmpty
  | c :: rest => pat.isPrefixOf (c :: rest) || containsSub pat rest

/-- JavaScript `String.prototype.replace` with a *string* pattern: replaces
only the first occurrence of `pat` by `repl`, and returns the string
unchanged when `pat` does not occur. -/
def replaceFirst (pat repl : Str) : Str → Str
  | [] => if pat.isEmpty then repl else []
  | c :: rest =>
    if pat.isPrefixOf (c :: rest) then repl ++ (c :: rest).drop pat.length
    else c :: replaceFirst pat repl rest

/-! ## S3 adapter (`s3.js`) -/

/-- The environment-driven S3 configuration read by `s3.js`
(`S3_ENDPOINT`, `S3_TENANT_ID`, `S3_BUCKET`; the keys and region play no
role in URL construction). -/
structure S3Config where
  endpoint : Str
  tenantId : Str
  bucket : Str
deriving DecidableEq, Repr

/-- `getS3Url` from `s3.js`: strips the URL scheme off the endpoint with two
first-occurrence `replace` calls, then builds
`https://{endpoint}/{tenant}:{bucket}/{key}` when a tenant id is configured
and `https://{endpoint}/{bucket}/{key}` otherwise. -/
def getS3Url (cfg : S3Config) (key : Str) : Str :=
  let endpoint := replaceFirst ("http://".toList) []
    (replaceFirst ("https://".toList) [] cfg.endpoint)
  if cfg.tenantId = [] then
    "https://".toList ++ endpoint ++ ['/'] ++ cfg.bucket ++ ['/'] ++ key
  else
    "https://".toList ++ endpoint ++ ['/'] ++ cfg.tenantId ++ [':'] ++ cfg.bucket
      ++ ['/'] ++ key

/-! ## Path helpers (`path.extname`, `path.parse(..).name`, `path.basename`,
and the `replace(/\.[^/.]+$/, "")` idiom from the upload handler) -/

/-- The extension (with leading dot) determined by the *last* dot of `s`, if
any.  Helper for `extname`; positions are counted from the start of `s`. -/
def extnameFrom : Str → Option Str
  | [] => none
  | c :: rest =>
    match extnameFrom rest with
    | some e => some e
    | none => if c = '.' then some ('.' :: rest) else none

/-- Node's `path.extname`: the suffix starting at the last dot, except that a
dot in the very first position (a dot-file such as `.bashrc`) does not count;
empty when there is no (counting) dot. -/
def extname : Str → Str
  | [] => []
  | _ :: rest => (extnameFrom rest).getD []

/-- Node's `path.parse(s).name` for a bare filename: the filename with its
`extname` removed. -/
def parseName (s : Str) : Str := s.take (s.length - (extname s).length)

/-- Node's `path.basename`: the part after the last `/`. -/
def baseName (s : Str) : Str := (s.reverse.takeWhile (fun c => c ≠ '/')).reverse

/-- The upload handler's default display name,
`file.originalname.replace(/\.[^/.]+$/, "")`: remove a trailing
`.xxx` where `xxx` is nonempty and contains neither `.` nor `/`; otherwise
leave the name unchanged. -/
def stripExtRegex (s : Str) : Str :=
  let r := s.reverse
  let suffixRev := r.takeWhile (fun c => c ≠ '.')
  let rest := r.drop suffixRev.length
  match rest with
  | [] => s
  | _ :: beforeRev =>
    if suffixRev = [] ∨ suffixRev.contains '/' then s else beforeRev.reverse

/-! ## Data model (`server.js` media schema) -/

/-- Pixel dimensions as stored in the media schema. -/
structure Dimensions where
  width : Nat
  height : Nat
deriving DecidableEq, Repr

/-- Client-supplied per-file metadata (one entry of the parsed `metadata`
form field).  `none` models an absent (`undefined`) JavaScript property. -/
structure FileMeta where
  name : Option Str
  date : Option Str
  location : Option Str
  tags : Option (List Str)
  photographer : Option Str
  dimensions : Option Dimensions
deriving DecidableEq, Repr

/-- The empty metadata object `{}`. -/
def FileMeta.empty : FileMeta := ⟨none, none, none, none, none, none⟩

/-- One document of the `Media` mongoose model (`server.js` lines 183-202). -/
structure MediaRecord where
  originalName : Str
  filename : Str
  url : Str
  thumbnail : Option Str
  size : Nat
  mimetype : Str
  uploadedAt : Nat
  name : Str
  type : Str
  date : Str
  location : Str
  tags : List Str
  photographer : Str
  dimensions : Option Dimensions
  storageType : Str
deriving DecidableEq, Repr

/-- One entry of the multipart upload: the client-supplied original name,
the client-supplied MIME type, and the byte size. -/
structure UploadFile where
  originalname : Str
  mimetype : Str
  size : Nat
deriving DecidableEq, Repr

/-- JavaScript `mimetype.startsWith('video/')`. -/
def isVideo (f : UploadFile) : Bool := "video/".toList.isPrefixOf f.mimetype

/-- Models `Date.prototype.toISOString` abstractly: a definite rendering of
the numeric timestamp.  The claims only require that the default `date`
field equals this rendering of the batch upload time. -/
def isoString (t : Nat) : Str := 'I' :: 'S' :: 'O' :: ':' :: Nat.toDigits 10 t

/-! ## Multer middleware (`server.js` lines 79-120) -/

/-- The extension allow-list (`server.js` lines 94-99), verbatim. -/
def allowedExtensions : List Str :=
  [".png".toList, ".jpg".toList, ".jpeg".toList, ".webp".toList, ".gif".toList,
   ".bmp".toList, ".tif".toList, ".tiff".toList, ".svg".toList, ".ico".toList,
   ".avif".toList, ".heic".toList, ".heif".toList, ".jfif".toList, ".pjpeg".toList,
   ".pjp".toList, ".raw".toList, ".arw".toList, ".cr2".toList, ".nrw".toList,
   ".k25".toList, ".dng".toList, ".nef".toList, ".orf".toList, ".sr2".toList,
   ".pef".toList, ".raf".toList, ".rw2".toList, ".rwl".toList, ".srw".toList,
   ".bay".toList, ".erf".toList, ".mef".toList, ".mos".toList, ".mrw".toList,
   ".srw".toList, ".x3f".toList,
   ".mp4".toList, ".mov".toList, ".avi".toList, ".wmv".toList, ".flv".toList,
   ".webm".toList, ".mkv".toList, ".m4v".toList, ".3gp".toList, ".ogg".toList,
   ".ogv".toList, ".mts".toList, ".m2ts".toList, ".ts".toList, ".m2v".toList,
   ".f4v".toList, ".f4p".toList, ".f4a".toList, ".f4b".toList, ".divx".toList,
   ".asf".toList, ".rm".toList, ".rmvb".toList, ".vob".toList, ".dat".toList,
   ".mpe".toList, ".mpg".toList, ".mpeg".toList]

/-- The MIME-type allow-list (`server.js` lines 100-105), verbatim. -/
def allowedMimeTypes : List Str :=
  ["image/png".toList, "image/jpeg".toList, "image/webp".toList, "image/gif".toList,
   "image/bmp".toList, "image/tiff".toList, "image/svg+xml".toList, "image/x-icon".toList,
   "image/vnd.microsoft.icon".toList, "image/avif".toList, "image/heic".toList,
   "image/heif".toList, "image/jfif".toList, "image/pjpeg".toList, "image/pjp".toList,
   "image/x-adobe-dng".toList, "image/x-canon-cr2".toList, "image/x-nikon-nef".toList,
   "image/x-sony-arw".toList, "image/x-panasonic-rw2".toList, "image/x-olympus-orf".toList,
   "image/x-fuji-raf".toList, "image/x-pentax-pef".toList, "image/x-samsung-srw".toList,
   "image/x-minolta-mrw".toList, "image/x-leaf-mos".toList, "image/x-sigma-x3f".toList,
   "video/mp4".toList, "video/quicktime".toList, "video/x-msvideo".toList,
   "video/x-ms-wmv".toList, "video/x-flv".toList, "video/webm".toList,
   "video/x-matroska".toList, "video/x-m4v".toList, "video/3gpp".toList,
   "video/ogg".toList, "video/ogv".toList, "video/mpeg".toList, "video/x-ms-asf".toList,
   "video/x-ms-mpeg".toList, "video/x-ms-vob".toList, "video/x-ms-dat".toList,
   "video/x-ms-divx".toList, "video/x-ms-rmvb".toList, "video/x-ms-ts".toList,
   "video/x-ms-mts".toList, "video/x-ms-m2ts".toList, "video/x-f4v".toList,
   "video/x-f4p".toList, "video/x-f4a".toList, "video/x-f4b".toList]

/-- The multer size limit: `200 * 1024 * 1024` bytes (`server.js` line 118). -/
def maxFileSize : Nat := 200 * 1024 * 1024

/-- How multer disposes of one incoming file: accepted, rejected by the
`fileFilter` (extension or MIME type off the allow-lists), or aborted by the
`limits.fileSize` cap. -/
inductive FileCheck
  | accepted
  | badType
  | tooLarge
deriving DecidableEq, Repr

/-- The `fileFilter` (which sees the file before its body is streamed) and
the size limit, applied to one file. -/
def checkFile (f : UploadFile) : FileCheck :=
  if allowedExtensions.contains (toLower (extname f.originalname))
      && allowedMimeTypes.contains f.mimetype then
    if f.size > maxFileSize then .tooLarge else .accepted
  else .badType

/-- The two multer error classes the error-handling middleware distinguishes
(`server.js` lines 573-586): `LIMIT_FILE_SIZE` and the fileFilter error —
both produce a 400 response for the whole request. -/
inductive MulterErr
  | badType
  | tooLarge
deriving DecidableEq, Repr

/-- multer's pass over the multipart body: files are handled in order; the
first rejection aborts the request (multer then removes the files it had
already written, so an aborted request leaves no net disk write).  Returns
the accepted files and the first error, if any. -/
def multerScan : List UploadFile → List UploadFile × Option MulterErr
  | [] => ([], none)
  | f :: rest =>
    match checkFile f with
    | .badType => ([], some .badType)
    | .tooLarge => ([], some .tooLarge)
    | .accepted =>
      let r := multerScan rest
      (f :: r.1, r.2)

/-! ## Upload endpoint (`server.js` lines 268-420) -/

/-- The `metadata` form field as the handler sees it: absent, present but not
valid JSON (in which case `JSON.parse` throws and the `catch` ignores the
error, leaving `metadata = {}`), a single JSON object shared by all files, or
a JSON array indexed per file. -/
inductive MetaField
  | absent
  | invalid
  | shared (m : FileMeta)
  | perFile (ms : List FileMeta)
deriving DecidableEq, Repr

/-- `let fileMeta = metadata[idx] || metadata || {}` followed by
`if (Array.isArray(metadata)) fileMeta = metadata[idx] || {}`: an object is
used for every file, an array positionally, and `{}` (absent or unparsable
metadata) yields the empty metadata. -/
def resolveMeta (mf : MetaField) (idx : Nat) : FileMeta :=
  match mf with
  | .absent => FileMeta.empty
  | .invalid => FileMeta.empty
  | .shared m => m
  | .perFile ms => (ms.get? idx).getD FileMeta.empty

/-- JavaScript `v || d` on a string-valued optional property: `undefined` and
the empty string are both falsy. -/
def orDefaultStr (v : Option Str) (d : Str) : Str :=
  match v with
  | none => d
  | some s => if s = [] then d else s

/-- Per-file outcomes of the external world while one file is processed: the
S3 transport for the primary object and the thumbnail, ffmpeg thumbnail
generation, the ffprobe result (`none` = the probe errored / rejected;
`some d` = it resolved with value `d`, where `d = none` models a stream
without width/height), and the `mediaDoc.save()` outcome. -/
structure FileEnv where
  primaryUploadOk : Bool
  thumbGenOk : Bool
  thumbUploadOk : Bool
  probe : Option (Option Dimensions)
  saveOk : Bool
deriving DecidableEq, Repr

/-- An environment in which every external operation succeeds and ffprobe
reports 640x480. -/
def FileEnv.allOk : FileEnv :=
  { primaryUploadOk := true, thumbGenOk := true, thumbUploadOk := true,
    probe := some (some ⟨640, 480⟩), saveOk := true }

/-- Server-side configuration fixed at startup: whether S3 is enabled
(`isS3Configured()`), the configured `UPLOAD_PASSWORD` (if any), and the S3
settings. -/
structure ServerConfig where
  s3Enabled : Bool
  uploadPassword : Option Str
  s3cfg : S3Config
deriving DecidableEq, Repr

/-- One `POST /api/upload` request after body parsing: the provided
password, the multipart files, the raw `metadata` field, the batch timestamp
(`new Date()` taken once), and the stream of `crypto.randomUUID()` values
consumed per file position. -/
structure UploadRequest where
  password : Option Str
  files : List UploadFile
  metaField : MetaField
  uploadTime : Nat
  uuids : List Str
deriving DecidableEq, Repr

/-- The generated storage key for the file at position `idx`:
`${uuid}${extension}` (the same formula is used by the multer disk storage
in local mode and by the handler in S3 mode). -/
def filenameFor (req : UploadRequest) (idx : Nat) (f : UploadFile) : Str :=
  (req.uuids.get? idx).getD [] ++ extname f.originalname

/-- The `new Media({...})` document built at `server.js` lines 387-403. -/
def mkRecord (f : UploadFile) (filename url : Str) (thumb : Option Str)
    (dims : Option Dimensions) (fm : FileMeta) (uploadTime : Nat)
    (storType : Str) : MediaRecord :=
  { originalName := f.originalname
    filename := filename
    url := url
    thumbnail := thumb
    size := f.size
    mimetype := f.mimetype
    uploadedAt := uploadTime
    name := orDefaultStr fm.name (stripExtRegex f.originalname)
    type := if isVideo f then "video".toList else "image".toList
    date := orDefaultStr fm.date (isoString uploadTime)
    location := orDefaultStr fm.location []
    tags := fm.tags.getD []
    photographer := orDefaultStr fm.photographer []
    dimensions := dims
    storageType := storType }

/-- What processing one file produced: the saved record (`none` when the
file's async closure threw), the S3 keys successfully written, the local
thumbnail files written (local mode), and whether the closure threw (which
makes the batch's `Promise.all` reject). -/
structure FileOutcome where
  record : Option MediaRecord
  s3Writes : List Str
  localWrites : List Str
  failed : Bool
deriving DecidableEq, Repr

/-- The body of the `req.files.map(async (file, idx) => ...)` closure for one
file (`server.js` lines 311-405).  In S3 mode the primary buffer is uploaded
first (a transport failure throws and fails this file); for videos the
thumbnail (`try`/`catch`, non-fatal) and the dimensions (`try`/`catch`,
non-fatal, overwriting the metadata-supplied dimensions when the probe
resolves) are derived independently; finally the record is saved.  In local
mode the primary file is already on disk (written by the multer disk
storage) and the thumbnail stays local. -/
def processFile (cfg : ServerConfig) (env : FileEnv) (f : UploadFile)
    (filename : Str) (fm : FileMeta) (uploadTime : Nat) : FileOutcome :=
  let video := isVideo f
  let thumbFilename := parseName filename ++ ".jpg".toList
  let dims0 := fm.dimensions
  let storType : Str := if cfg.s3Enabled then "s3".toList else "local".toList
  if cfg.s3Enabled then
    if env.primaryUploadOk then
      let url := getS3Url cfg.s3cfg filename
      let thumbKey := "thumbnails/".toList ++ thumbFilename
      let thumbDone := video && env.thumbGenOk && env.thumbUploadOk
      let thumb : Option Str :=
        if thumbDone then some (getS3Url cfg.s3cfg thumbKey) else none
      let s3w := filename :: (if thumbDone then [thumbKey] else [])
      let dims :=
        if video then
          match env.probe with
          | none => dims0
          | some d => d
        else dims0
      let rcd := mkRecord f filename url thumb dims fm uploadTime storType
      if env.saveOk then
        { record := some rcd, s3Writes := s3w, localWrites := [], failed := false }
      else
        { record := none, s3Writes := s3w, localWrites := [], failed := true }
    else
      { record := none, s3Writes := [], localWrites := [], failed := true }
  else
    let url := "/uploads/".toList ++ filename
    let thumbDone := video && env.thumbGenOk
    let thumb : Option Str :=
      if thumbDone then some ("/uploads/thumbnails/".toList ++ thumbFilename) else none
    let lw := if thumbDone then ["thumbnails/".toList ++ thumbFilename] else []
    let dims :=
      if video then
        match env.probe with
        | none => dims0
        | some d => d
      else dims0
    let rcd := mkRecord f filename url thumb dims fm uploadTime storType
    if env.saveOk then
      { record := some rcd, s3Writes := [], localWrites := lw, failed := false }
    else
      { record := none, s3Writes := [], localWrites := lw, failed := true }

/-- The outcome of the file at position `idx` of the batch, depending only on
that file, its environment, and the request-level inputs. -/
def fileOutcomeAt (cfg : ServerConfig) (env : Nat → FileEnv) (req : UploadRequest)
    (idx : Nat) (f : UploadFile) : FileOutcome :=
  processFile cfg (env idx) f (filenameFor req idx f)
    (resolveMeta req.metaField idx) req.uploadTime

/-- All per-file outcomes of the batch, in order. -/
def handlerOutcomes (cfg : ServerConfig) (env : Nat → FileEnv)
    (req : UploadRequest) : List FileOutcome :=
  req.files.enum.map (fun p => fileOutcomeAt cfg env req p.1 p.2)

/-- The HTTP-level result of `POST /api/upload`. -/
inductive UploadResponse
  | multerRejected (e : MulterErr)
  | authRequired
  | serverMisconfigured
  | authInvalid
  | noFiles
  | batchError
  | ok (n : Nat)
deriving DecidableEq, Repr

/-- The observable result of one upload request: the response, the metadata
store afterwards, the contents of the local uploads directory afterwards,
and the S3 keys written. -/
structure RequestResult where
  response : UploadResponse
  store : List MediaRecord
  disk : List Str
  s3Writes : List Str
deriving DecidableEq, Repr

/-- The filenames the multer disk storage assigns to the batch's files. -/
def acceptedFilenames (req : UploadRequest) : List Str :=
  req.files.enum.map (fun p => filenameFor req p.1 p.2)

/-- The whole `POST /api/upload` request: the multer middleware runs first
(in local mode it writes every file to the uploads directory as the body is
parsed; a rejection aborts the request with 400 and multer removes what it
had written); only then does the handler check the password, the file count,
parse the metadata, and process the files.  `Promise.all` without
cancellation: every file's closure runs to completion, so records of
successful files are saved even when another file's closure throws — but a
single throw turns the response into a batch-level 500. -/
def uploadRequest (cfg : ServerConfig) (env : Nat → FileEnv) (req : UploadRequest)
    (store : List MediaRecord) (disk : List Str) : RequestResult :=
  match (multerScan req.files).2 with
  | some e => { response := .multerRejected e, store := store, disk := disk, s3Writes := [] }
  | none =>
    let disk1 := if cfg.s3Enabled then disk else disk ++ acceptedFilenames req
    match req.password with
    | none => { response := .authRequired, store := store, disk := disk1, s3Writes := [] }
    | some p =>
      match cfg.uploadPassword with
      | none =>
        { response := .serverMisconfigured, store := store, disk := disk1, s3Writes := [] }
      | some expected =>
        if p ≠ expected then
          { response := .authInvalid, store := store, disk := disk1, s3Writes := [] }
        else if req.files = [] then
          { response := .noFiles, store := store, disk := disk1, s3Writes := [] }
        else
          let outs := handlerOutcomes cfg env req
          { response := if outs.any (·.failed) then .batchError else .ok outs.length
            store := store ++ outs.filterMap (·.record)
            disk := disk1 ++ (outs.map (·.localWrites)).flatten
            s3Writes := (outs.map (·.s3Writes)).flatten }

/-! ## Delete endpoint (`server.js` lines 450-527) and update endpoint
(`server.js` lines 530-570) -/

/-- `Media.findOne({ filename })`: the first record with the given key. -/
def findMedia (store : List MediaRecord) (key : Str) : Option MediaRecord :=
  store.find? (fun r => decide (r.filename = key))

/-- `Media.deleteOne({ filename })`: remove the first record with the key. -/
def removeFirstBy (key : Str) : List MediaRecord → List MediaRecord
  | [] => []
  | r :: rest => if r.filename = key then rest else r :: removeFirstBy key rest

/-- `Media.findOneAndUpdate({ filename }, { $set: updates })`: rewrite the
first record with the key. -/
def updateFirstBy (key : Str) (g : MediaRecord → MediaRecord) :
    List MediaRecord → List MediaRecord
  | [] => []
  | r :: rest => if r.filename = key then g r :: rest else r :: updateFirstBy key g rest

/-- The filesystem / S3 outcomes the delete handler can encounter:
`deleteFromS3` for the primary and for the thumbnail (failures of both are
caught in the S3 branch), `fs.existsSync`/`fs.unlinkSync` for the local file
and the local thumbnail (an `unlinkSync` throw is NOT caught locally and
falls through to the handler's outer catch). -/
structure DeleteEnv where
  s3DeleteOk : Bool
  s3DeleteThumbOk : Bool
  localFileExists : Bool
  localUnlinkOk : Bool
  localThumbExists : Bool
  localThumbUnlinkOk : Bool
deriving DecidableEq, Repr

/-- Responses shared by the delete and update endpoints. -/
inductive SimpleResponse
  | authRequired
  | serverMisconfigured
  | authInvalid
  | notFound
  | ok
  | serverError
deriving DecidableEq, Repr

/-- `DELETE /api/files/:filename`: password gate, record lookup, storage
cleanup, then `Media.deleteOne`.  In the S3 branch every storage failure is
caught and logged; in the local branch an `unlinkSync` error (file present
but not removable) propagates to the outer catch and yields a 500 before the
record is removed. -/
def deleteRequest (cfg : ServerConfig) (env : DeleteEnv) (password : Option Str)
    (key : Str) (store : List MediaRecord) : SimpleResponse × List MediaRecord :=
  match password with
  | none => (.authRequired, store)
  | some p =>
    match cfg.uploadPassword with
    | none => (.serverMisconfigured, store)
    | some expected =>
      if p ≠ expected then (.authInvalid, store)
      else
        match findMedia store key with
        | none => (.notFound, store)
        | some r =>
          if r.storageType = "s3".toList ∧ cfg.s3Enabled = true then
            (.ok, removeFirstBy key store)
          else
            if env.localFileExists ∧ env.localUnlinkOk = false then
              (.serverError, store)
            else if env.localThumbExists ∧ env.localThumbUnlinkOk = false then
              (.serverError, store)
            else (.ok, removeFirstBy key store)

/-- The body of `PUT /api/files/:filename`. -/
structure UpdateBody where
  password : Option Str
  name : Option Str
  location : Option Str
  tags : Option (List Str)
  photographer : Option Str
  date : Option Str
deriving DecidableEq, Repr

/-- The `allowedFields` loop plus `$set`: only `name`, `location`, `tags`,
`photographer`, `date` are copied from the body; every other field of the
record is untouched. -/
def applyUpdate (b : UpdateBody) (r : MediaRecord) : MediaRecord :=
  { r with
    name := b.name.getD r.name
    location := b.location.getD r.location
    tags := b.tags.getD r.tags
    photographer := b.photographer.getD r.photographer
    date := b.date.getD r.date }

/-- `PUT /api/files/:filename`: password gate, then
`findOneAndUpdate({filename}, {$set: updates})`; 404 when no record has the
key. -/
def putRequest (cfg : ServerConfig) (b : UpdateBody) (key : Str)
    (store : List MediaRecord) : SimpleResponse × List MediaRecord :=
  match b.password with
  | none => (.authRequired, store)
  | some p =>
    match cfg.uploadPassword with
    | none => (.serverMisconfigured, store)
    | some expected =>
      if p ≠ expected then (.authInvalid, store)
      else
        match findMedia store key with
        | none => (.notFound, store)
        | some _ => (.ok, updateFirstBy key (applyUpdate b) store)

/-! ## Migration utility (`migrate-to-s3.js`) -/

/-- A filesystem / storage / database operation performed by the migration
utility, recorded as an effect trace. -/
inductive FsOp
  | readFile (p : Str)
  | writeFile (p : Str)
  | unlinkFile (p : Str)
  | s3Put (key : Str)
  | s3Head (key : Str)
  | dbUpdate (key : Str)
deriving DecidableEq, Repr

/-- Is the operation a file deletion? -/
def FsOp.isUnlink : FsOp → Bool
  | .unlinkFile _ => true
  | _ => false

/-- The external-world outcomes for migrating one record: does the local
file exist (`fs.existsSync`), does the primary upload succeed at the
transport level, does the immediate `existsInS3` verification report the
object present, does the local thumbnail file exist, does the thumbnail
upload succeed. -/
structure MigrationEnv where
  localExists : Bool
  uploadPrimaryOk : Bool
  primaryExists : Bool
  thumbLocalExists : Bool
  uploadThumbOk : Bool
deriving DecidableEq, Repr

/-- The three invocation modes of `migrate-to-s3.js`. -/
inductive MigMode
  | normal
  | dryRun
  | verifyOnly
deriving DecidableEq, Repr

/-- How one record's migration ended: `success` (`results.success++`),
`failed` (the per-file catch), or `skipped` (file missing on disk). -/
inductive MigrationOutcome
  | success
  | failed
  | skipped
deriving DecidableEq, Repr

/-- The result of migrating one record: the outcome counter it feeds, the
record as stored afterwards, the operations performed, and whether
`results.verified` was incremented. -/
structure MigrateStep where
  outcome : MigrationOutcome
  record : MediaRecord
  ops : List FsOp
  verifiedOk : Bool
deriving DecidableEq, Repr

/-- The `url`/`thumbnail`/`storageType` rewrite performed once the primary
upload has been verified (`migrate-to-s3.js` lines 273-283): `thumbnail` is
touched only when a thumbnail URL was produced. -/
def finishUpdate (s3cfg : S3Config) (media : MediaRecord) (thumbUrl : Option Str)
    (ops : List FsOp) : MigrateStep :=
  { outcome := .success
    record :=
      { media with
        url := getS3Url s3cfg media.filename
        storageType := "s3".toList
        thumbnail :=
          match thumbUrl with
          | some u => some u
          | none => media.thumbnail }
    ops := ops ++ [FsOp.dbUpdate media.filename]
    verifiedOk := true }

/-- The `/uploads/thumbnails/` marker tested by
`media.thumbnail.startsWith('/uploads/thumbnails/')`. -/
def thumbUrlMarker : Str := "/uploads/thumbnails/".toList

/-- One iteration of the migration loop (`migrate-to-s3.js` lines 230-291):
skip when the file is missing on disk; in dry-run mode count success without
doing anything; otherwise read the file, upload it (transport failure →
`failed`), verify via `existsInS3` (failure → `failed`, record untouched),
optionally read and upload the thumbnail (transport failure → `failed`; its
remote existence is never checked), and only then rewrite the record. -/
def migrateOne (mode : MigMode) (s3cfg : S3Config) (env : MigrationEnv)
    (media : MediaRecord) : MigrateStep :=
  if env.localExists = false then
    { outcome := .skipped, record := media, ops := [], verifiedOk := false }
  else
    match mode with
    | .dryRun => { outcome := .success, record := media, ops := [], verifiedOk := false }
    | _ =>
      let readOp := FsOp.readFile ("uploads/".toList ++ media.filename)
      if env.uploadPrimaryOk = false then
        { outcome := .failed, record := media, ops := [readOp], verifiedOk := false }
      else
        let ops1 := [readOp, FsOp.s3Put media.filename, FsOp.s3Head media.filename]
        if env.primaryExists = false then
          { outcome := .failed, record := media, ops := ops1, verifiedOk := false }
        else
          match media.thumbnail with
          | some t =>
            if thumbUrlMarker.isPrefixOf t then
              if env.thumbLocalExists then
                let thumbKey := "thumbnails/".toList ++ baseName t
                let opsR := ops1 ++ [FsOp.readFile ("uploads/thumbnails/".toList ++ baseName t)]
                if env.uploadThumbOk = false then
                  { outcome := .failed, record := media, ops := opsR, verifiedOk := true }
                else
                  finishUpdate s3cfg media (some (getS3Url s3cfg thumbKey))
                    (opsR ++ [FsOp.s3Put thumbKey])
              else finishUpdate s3cfg media none ops1
            else finishUpdate s3cfg media none ops1
          | none => finishUpdate s3cfg media none ops1

/-- The records the migration selects: those still marked `local` (the
source also selects records missing the field, which the schema defaults to
`local`; the model's `storageType` is total). -/
def selectLocal (store : List MediaRecord) : List MediaRecord :=
  store.filter (fun r => decide (r.storageType = "local".toList))

/-- The per-record steps of one run, the environment indexed by position in
the selected list. -/
def migrateSteps (mode : MigMode) (s3cfg : S3Config) (env : Nat → MigrationEnv)
    (ls : List MediaRecord) : List MigrateStep :=
  ls.enum.map (fun p => migrateOne mode s3cfg (env p.1) p.2)

/-- The store after the run: each `local` record is replaced by the record
its step produced (keyed positionally, matching `findByIdAndUpdate` on the
selected snapshot); other records are untouched. -/
def applySteps (mode : MigMode) (s3cfg : S3Config) (env : Nat → MigrationEnv) :
    Nat → List MediaRecord → List MediaRecord
  | _, [] => []
  | i, r :: rest =>
    if r.storageType = "local".toList then
      (migrateOne mode s3cfg (env i) r).record :: applySteps mode s3cfg env (i + 1) rest
    else r :: applySteps mode s3cfg env i rest

/-- The database backup written before a normal run (`createBackup`); the
backup file lives under `backups/`, not under the uploads directory. -/
def backupWrites : MigMode → List FsOp
  | .normal => [FsOp.writeFile ("backups/media-backup.json".toList)]
  | _ => []

/-- Verify-only mode (`verifyExistingFiles`): a `HeadObject` per record
already marked `s3`; nothing is written and the store is untouched. -/
def verifyRun (store : List MediaRecord) : List FsOp :=
  (store.filter (fun r => decide (r.storageType = "s3".toList))).map
    (fun r => FsOp.s3Head r.filename)

/-- The observable result of one run of the migration utility. -/
structure MigrateResult where
  store : List MediaRecord
  ops : List FsOp
  success : Nat
  verified : Nat
  failed : Nat
  skipped : Nat
deriving DecidableEq, Repr

/-- Count the steps feeding one outcome counter. -/
def countOutcome (steps : List MigrateStep) (o : MigrationOutcome) : Nat :=
  (steps.filter (fun s => decide (s.outcome = o))).length

/-- A whole run of `migrate-to-s3.js` in the given mode. -/
def migrateRun (mode : MigMode) (s3cfg : S3Config) (env : Nat → MigrationEnv)
    (store : List MediaRecord) : MigrateResult :=
  match mode with
  | .verifyOnly =>
    { store := store, ops := verifyRun store,
      success := 0, verified := 0, failed := 0, skipped := 0 }
  | _ =>
    let steps := migrateSteps mode s3cfg env (selectLocal store)
    { store := applySteps mode s3cfg env 0 store
      ops := backupWrites mode ++ (steps.map (·.ops)).flatten
      success := countOutcome steps .success
      verified := (steps.filter (·.verifiedOk)).length
      failed := countOutcome steps .failed
      skipped := countOutcome steps .skipped }

/-! ## Concrete fixtures -/

/-- A Contabo-style S3 configuration with a tenant id. -/
def s3cfg0 : S3Config :=
  { endpoint := "https://eu2.contabostorage.com".toList,
    tenantId := "tid".toList, bucket := "bkt".toList }

/-- Local-storage server with configured password `pw`. -/
def cfgLocal : ServerConfig :=
  { s3Enabled := false, uploadPassword := some ("pw".toList), s3cfg := s3cfg0 }

/-- S3-backed server with configured password `pw`. -/
def cfgS3 : ServerConfig :=
  { s3Enabled := true, uploadPassword := some ("pw".toList), s3cfg := s3cfg0 }

/-- Every file's external world succeeds. -/
def envAllOk : Nat → FileEnv := fun _ => FileEnv.allOk

/-- A well-formed PNG upload. -/
def filePng : UploadFile :=
  { originalname := "a.png".toList, mimetype := "image/png".toList, size := 5 }

/-- An upload with an extension and MIME type off the allow-lists. -/
def fileExe : UploadFile :=
  { originalname := "evil.exe".toList,
    mimetype := "application/x-msdownload".toList, size := 5 }

/-- A well-formed MP4 video upload. -/
def fileVid : UploadFile :=
  { originalname := "v.mp4".toList, mimetype := "video/mp4".toList, size := 10 }

/-- A single-file upload batch with the wrong password. -/
def reqBadPw : UploadRequest :=
  { password := some ("wrong".toList), files := [filePng], metaField := .absent,
    uploadTime := 0, uuids := ["u1".toList] }

/-- A correctly authenticated batch: one valid file followed by one file
whose extension/MIME is not allowed. -/
def reqMixed : UploadRequest :=
  { password := some ("pw".toList), files := [filePng, fileExe],
    metaField := .absent, uploadTime := 0,
    uuids := ["u1".toList, "u2".toList] }

/-- A stored local-storage image record. -/
def rec0 : MediaRecord :=
  { originalName := "a.png".toList, filename := "u1.png".toList,
    url := "/uploads/u1.png".toList, thumbnail := none, size := 5,
    mimetype := "image/png".toList, uploadedAt := 0, name := ['a'],
    type := "image".toList, date := ['d'], location := [], tags := [],
    photographer := [], dimensions := none, storageType := "local".toList }

/-- A stored local-storage video record with a local thumbnail. -/
def recVid : MediaRecord :=
  { rec0 with
    filename := "u1.mp4".toList, url := "/uploads/u1.mp4".toList,
    thumbnail := some ("/uploads/thumbnails/u1.jpg".toList),
    mimetype := "video/mp4".toList, type := "video".toList }

/-- The request's password is missing, or no password the server would
accept was provided. -/
def missingOrWrongPassword (cfg : ServerConfig) (req : UploadRequest) : Prop :=
  match req.password with
  | none => True
  | some p => cfg.uploadPassword ≠ some p

/-- Is the operation the record rewrite for the given key? -/
def isDbUpdate (key : Str) : FsOp → Bool
  | .dbUpdate k => k == key
  | _ => false

/-- An environment where the first file's S3 upload fails and everything
else succeeds. -/
def envFirstFails : Nat → FileEnv :=
  fun i => if i = 0 then
    { primaryUploadOk := false, thumbGenOk := true, thumbUploadOk := true,
      probe := some (some ⟨640, 480⟩), saveOk := true }
  else FileEnv.allOk

/-- A correctly authenticated batch of two valid files. -/
def reqTwoOk : UploadRequest :=
  { password := some ("pw".toList), files := [filePng, fileVid],
    metaField := .absent, uploadTime := 0,
    uuids := ["u1".toList, "u2".toList] }

/-- A correctly authenticated single-file batch whose `metadata` field is
present but not valid JSON. -/
def reqInvalidMeta : UploadRequest :=
  { password := some ("pw".toList), files := [filePng], metaField := .invalid,
    uploadTime := 42, uuids := ["u1".toList] }

/-- A per-file environment where the thumbnail's S3 upload fails but
everything else (including both transcoder invocations) deterministically
succeeds. -/
def envThumbUploadFails : FileEnv :=
  { primaryUploadOk := true, thumbGenOk := true, thumbUploadOk := false,
    probe := some (some ⟨640, 480⟩), saveOk := true }

/-- A delete-time world where the local file exists but `unlinkSync`
throws. -/
def envUnlinkFails : DeleteEnv :=
  { s3DeleteOk := true, s3DeleteThumbOk := true, localFileExists := true,
    localUnlinkOk := false, localThumbExists := false, localThumbUnlinkOk := true }

/-- A migration world where every external operation succeeds. -/
def envMigAllOk : MigrationEnv :=
  { localExists := true, uploadPrimaryOk := true, primaryExists := true,
    thumbLocalExists := true, uploadThumbOk := true }

/-- A migration world where the upload succeeds at the transport level but
the immediate `existsInS3` verification reports the object absent. -/
def envMigVerifyFails : MigrationEnv :=
  { localExists := true, uploadPrimaryOk := true, primaryExists := false,
    thumbLocalExists := true, uploadThumbOk := true }

/-- A stored S3-backed image record. -/
def recS3 : MediaRecord :=
  { rec0 with
    filename := "s1.png".toList,
    url := "https://eu2.contabostorage.com/tid:bkt/s1.png".toList,
    storageType := "s3".toList }

/-- An authenticated update body touching every mutable field. -/
def body0 : UpdateBody :=
  { password := some ("pw".toList), name := some ("renamed".toList),
    location := some ("loc".toList), tags := some [['t']],
    photographer := some ("ph".toList), date := some ("2020".toList) }

/-! ## Helper lemmas -/

theorem replaceFirst_of_not_contains (pat repl : Str) :
    ∀ s : Str, containsSub pat s = false → replaceFirst pat repl s = s := by
  intro s
  induction s with
  | nil =>
    intro h
    simp [containsSub, List.isEmpty_iff] at h
    simp [replaceFirst, List.isEmpty_iff, h]
  | cons c rest ih =>
    intro h
    simp [containsSub] at h
    simp [replaceFirst, h.1, ih h.2]

theorem replaceFirst_append_self (pat repl tail : Str) (hne : pat ≠ []) :
    replaceFirst pat repl (pat ++ tail) = repl ++ tail := by
  match pat, hne with
  | p :: ps, _ =>
    show replaceFirst (p :: ps) repl (p :: (ps ++ tail)) = repl ++ tail
    rw [replaceFirst]
    have hpre : (p :: ps).isPrefixOf (p :: (ps ++ tail)) = true := by
      rw [List.isPrefixOf_iff_prefix]
      exact ⟨tail, by simp⟩
    simp [hpre]

theorem getS3Url_stripped (host : Str) (hclean : containsSub ("http://".toList) host = false)
    (cfg : S3Config) (hend : cfg.endpoint = "https://".toList ++ host) (key : Str) :
    getS3Url cfg key =
      if cfg.tenantId = [] then
        "https://".toList ++ host ++ ['/'] ++ cfg.bucket ++ ['/'] ++ key
      else
        "https://".toList ++ host ++ ['/'] ++ cfg.tenantId ++ [':'] ++ cfg.bucket
          ++ ['/'] ++ key := by
  have h1 : replaceFirst ("https://".toList) [] cfg.endpoint = host := by
    rw [hend, replaceFirst_append_self _ _ _ (by decide)]
    simp
  have h2 : replaceFirst ("http://".toList) [] host = host :=
    replaceFirst_of_not_contains _ _ _ hclean
  unfold getS3Url
  rw [h1, h2]

/-- A record that made it into a batch's final store: any file of an
authenticated, multer-accepted batch whose closure saved a record
contributes that record to the final store. -/
theorem record_mem_store (cfg : ServerConfig) (env : Nat → FileEnv) (req : UploadRequest)
    (store : List MediaRecord) (disk : List Str) (idx : Nat) (f : UploadFile) (p : Str)
    (hp : req.password = some p) (hexp : cfg.uploadPassword = some p)
    (hm : (multerScan req.files).2 = none)
    (hf : req.files[idx]? = some f)
    (r : MediaRecord) (hr : (fileOutcomeAt cfg env req idx f).record = some r) :
    r ∈ (uploadRequest cfg env req store disk).store := by
  have hne : req.files ≠ [] := by
    intro h0
    rw [h0] at hf
    simp at hf
  simp only [uploadRequest, hm, hp, hexp]
  rw [if_neg (fun h0 : p ≠ p => h0 rfl), if_neg hne]
  apply List.mem_append_right
  apply List.mem_filterMap.2
  refine ⟨fileOutcomeAt cfg env req idx f, ?_, hr⟩
  unfold handlerOutcomes
  have : (idx, f) ∈ req.files.enum := List.mk_mem_enum_iff_getElem?.2 hf
  exact List.mem_map_of_mem _ this

/-! ## C1: uploads with a missing or wrong password -/

/-- C1 as stated is false: with local storage configured, the multer disk
storage has already written the batch's files into the uploads directory by
the time the handler rejects the wrong password — the response is 401, no
MediaRecord exists, but the uploads directory received a write. -/
theorem c1_counterexample :
    (uploadRequest cfgLocal envAllOk reqBadPw [] []).response = .authInvalid ∧
    (uploadRequest cfgLocal envAllOk reqBadPw [] []).store = [] ∧
    (uploadRequest cfgLocal envAllOk reqBadPw [] []).disk ≠ [] := by
  decide

/-- C1 (amended): for every upload request whose password is missing or not
the accepted one, no MediaRecord is created and the remote object store
receives no write; (the local uploads directory, however, may receive writes
from the multipart middleware before the password is checked). -/
theorem c1_no_record_no_remote_write (cfg : ServerConfig) (env : Nat → FileEnv)
    (req : UploadRequest) (store : List MediaRecord) (disk : List Str)
    (h : missingOrWrongPassword cfg req) :
    (uploadRequest cfg env req store disk).store = store ∧
    (uploadRequest cfg env req store disk).s3Writes = [] := by
  unfold uploadRequest
  cases hm : (multerScan req.files).2 with
  | some e => exact ⟨rfl, rfl⟩
  | none =>
    cases hp : req.password with
    | none => exact ⟨rfl, rfl⟩
    | some p =>
      simp only [missingOrWrongPassword, hp] at h
      cases he : cfg.uploadPassword with
      | none => exact ⟨rfl, rfl⟩
      | some expected =>
        have hne : p ≠ expected := fun hpe => h (by rw [he, hpe])
        simp [hne]

/-- Witness for C1: the bad-password request against the S3 configuration
leaves the store empty and writes nothing to S3. -/
theorem c1_witness :
    (uploadRequest cfgS3 envAllOk reqBadPw [] []).store = [] ∧
    (uploadRequest cfgS3 envAllOk reqBadPw [] []).s3Writes = [] :=
  c1_no_record_no_remote_write cfgS3 envAllOk reqBadPw [] []
    (show cfgS3.uploadPassword ≠ some ("wrong".toList) from by decide)

/-! ## C2: per-file failure isolation in a batch -/

theorem processFile_record_of_ok (cfg : ServerConfig) (env : FileEnv) (f : UploadFile)
    (fn : Str) (fm : FileMeta) (t : Nat)
    (h : (processFile cfg env f fn fm t).failed = false) :
    (processFile cfg env f fn fm t).record.isSome = true := by
  cases hs : cfg.s3Enabled <;> cases hp : env.primaryUploadOk <;> cases hv : env.saveOk <;>
    simp [processFile, hs, hp, hv] at h ⊢

/-- C2 as stated is false: in a correctly authenticated batch of two files
where the second has a disallowed extension and MIME type, the whole request
is rejected with the multer 400 — the first (valid) file does not receive a
MediaRecord and no per-file failure report is produced. -/
theorem c2_counterexample :
    (uploadRequest cfgS3 envAllOk reqMixed [] []).response = .multerRejected .badType ∧
    (uploadRequest cfgS3 envAllOk reqMixed [] []).store = [] := by
  decide

/-- C2 (amended): an unsupported-type or oversize file aborts the *entire*
batch with a 400 before any record is written, and a storage/save error in
one file turns the response into a batch-level 500 — but, because
`Promise.all` does not cancel the other closures, every file whose own
processing succeeds still gets its MediaRecord saved, and nothing is rolled
back: if the batch passed multer and authentication, any file whose
processing succeeds has its record in the final store regardless of the
other files' failures. -/
theorem c2_no_rollback (cfg : ServerConfig) (env : Nat → FileEnv) (req : UploadRequest)
    (store : List MediaRecord) (disk : List Str) (idx : Nat) (f : UploadFile) (p : Str)
    (hp : req.password = some p) (hexp : cfg.uploadPassword = some p)
    (hm : (multerScan req.files).2 = none)
    (hf : req.files[idx]? = some f)
    (hok : (fileOutcomeAt cfg env req idx f).failed = false) :
    (fileOutcomeAt cfg env req idx f).record.isSome = true ∧
    ∀ r, (fileOutcomeAt cfg env req idx f).record = some r →
      r ∈ (uploadRequest cfg env req store disk).store := by
  constructor
  · exact processFile_record_of_ok cfg (env idx) f (filenameFor req idx f)
      (resolveMeta req.metaField idx) req.uploadTime hok
  · intro r hr
    exact record_mem_store cfg env req store disk idx f p hp hexp hm hf r hr

/-- Witness for C2: with the first file's upload failing, the second file's
record is still in the final store. -/
theorem c2_witness :
    ((fileOutcomeAt cfgS3 envFirstFails reqTwoOk 1 fileVid).record.getD rec0) ∈
      (uploadRequest cfgS3 envFirstFails reqTwoOk [] []).store :=
  (c2_no_rollback cfgS3 envFirstFails reqTwoOk [] [] 1 fileVid ("pw".toList)
    (by decide) (by decide) (by decide) (by decide) (by decide)).2
    ((fileOutcomeAt cfgS3 envFirstFails reqTwoOk 1 fileVid).record.getD rec0)
    (by decide)

/-! ## C10: invalid metadata JSON is swallowed; defaults are used -/

theorem processFile_allOk_not_failed (cfg : ServerConfig) (f : UploadFile)
    (fn : Str) (fm : FileMeta) (t : Nat) :
    (processFile cfg FileEnv.allOk f fn fm t).failed = false := by
  cases hs : cfg.s3Enabled <;> simp [processFile, FileEnv.allOk, hs]

theorem processFile_empty_meta (cfg : ServerConfig) (env : FileEnv) (f : UploadFile)
    (fn : Str) (t : Nat) (r : MediaRecord)
    (hr : (processFile cfg env f fn FileMeta.empty t).record = some r) :
    r.name = stripExtRegex f.originalname ∧ r.date = isoString t ∧
    r.location = [] ∧ r.tags = [] ∧ r.photographer = [] := by
  cases hs : cfg.s3Enabled <;> cases hp : env.primaryUploadOk <;>
    cases hv : env.saveOk <;>
    simp [processFile, hs, hp, hv] at hr <;>
    (rw [← hr]; simp [mkRecord, orDefaultStr, FileMeta.empty])

theorem handlerOutcomes_allOk_no_fail (cfg : ServerConfig) (req : UploadRequest) :
    ((handlerOutcomes cfg (fun _ => FileEnv.allOk) req).any (·.failed)) = false := by
  rw [List.any_eq_false]
  intro o ho
  simp only [handlerOutcomes, List.mem_map] at ho
  obtain ⟨q, _, rfl⟩ := ho
  simp [fileOutcomeAt, processFile_allOk_not_failed]

/-- C10: when the `metadata` form field is present but not valid JSON, the
parse error is swallowed: an authenticated, multer-accepted batch still
succeeds, and each file's MediaRecord carries the defaults — name is the
original filename without its extension, date is the batch timestamp's ISO
rendering, and location, tags, and photographer are empty. -/
theorem c10_invalid_metadata_defaults (cfg : ServerConfig) (req : UploadRequest)
    (store : List MediaRecord) (disk : List Str) (idx : Nat) (f : UploadFile) (p : Str)
    (hmeta : req.metaField = .invalid)
    (hp : req.password = some p) (hexp : cfg.uploadPassword = some p)
    (hm : (multerScan req.files).2 = none)
    (hf : req.files[idx]? = some f) :
    (uploadRequest cfg (fun _ => FileEnv.allOk) req store disk).response =
      .ok req.files.length ∧
    (fileOutcomeAt cfg (fun _ => FileEnv.allOk) req idx f).record.isSome = true ∧
    ∀ r, (fileOutcomeAt cfg (fun _ => FileEnv.allOk) req idx f).record = some r →
      r ∈ (uploadRequest cfg (fun _ => FileEnv.allOk) req store disk).store ∧
      r.name = stripExtRegex f.originalname ∧
      r.date = isoString req.uploadTime ∧
      r.location = [] ∧ r.tags = [] ∧ r.photographer = [] := by
  have hne : req.files ≠ [] := by
    intro h0
    rw [h0] at hf
    simp at hf
  refine ⟨?_, ?_, ?_⟩
  · simp only [uploadRequest, hm, hp, hexp]
    rw [if_neg (fun h0 : p ≠ p => h0 rfl), if_neg hne]
    have hno := handlerOutcomes_allOk_no_fail cfg req
    simp only [hno]
    simp [handlerOutcomes, List.enum_length]
  · exact processFile_record_of_ok cfg FileEnv.allOk f (filenameFor req idx f)
      (resolveMeta req.metaField idx) req.uploadTime
      (processFile_allOk_not_failed cfg f _ _ _)
  · intro r hr
    have hmem := record_mem_store cfg (fun _ => FileEnv.allOk) req store disk idx f p
      hp hexp hm hf r hr
    have hempty : resolveMeta req.metaField idx = FileMeta.empty := by
      rw [hmeta]
      rfl
    have hr' : (processFile cfg FileEnv.allOk f (filenameFor req idx f)
        FileMeta.empty req.uploadTime).record = some r := by
      rw [← hempty]
      exact hr
    have hdef := processFile_empty_meta cfg FileEnv.allOk f (filenameFor req idx f)
      req.uploadTime r hr'
    exact ⟨hmem, hdef.1, hdef.2.1, hdef.2.2.1, hdef.2.2.2.1, hdef.2.2.2.2⟩

/-- Witness for C10: the invalid-metadata single-file batch succeeds and the
created record carries the default name and ISO date. -/
theorem c10_witness :
    (uploadRequest cfgLocal (fun _ => FileEnv.allOk) reqInvalidMeta [] []).response =
      .ok reqInvalidMeta.files.length ∧
    ((fileOutcomeAt cfgLocal (fun _ => FileEnv.allOk) reqInvalidMeta 0 filePng).record.getD
        rec0).name = stripExtRegex filePng.originalname ∧
    ((fileOutcomeAt cfgLocal (fun _ => FileEnv.allOk) reqInvalidMeta 0 filePng).record.getD
        rec0).date = isoString reqInvalidMeta.uploadTime :=
  have h := c10_invalid_metadata_defaults cfgLocal reqInvalidMeta [] [] 0 filePng
    ("pw".toList) (by decide) (by decide) (by decide) (by decide) (by decide)
  have h2 := h.2.2 ((fileOutcomeAt cfgLocal (fun _ => FileEnv.allOk) reqInvalidMeta 0
    filePng).record.getD rec0) (by decide)
  ⟨h.1, h2.2.1, h2.2.2.1⟩

/-! ## C4: video thumbnail and dimensions pairing -/

/-- C4 as stated is false: with fully deterministic transcoding (both
ffmpeg and ffprobe succeed), a failed thumbnail upload to S3 is swallowed by
the thumbnail `try`/`catch`, producing a video MediaRecord with `dimensions`
present and `thumbnail` absent. -/
theorem c4_counterexample :
    ((processFile cfgS3 envThumbUploadFails fileVid ("u1.mp4".toList)
        FileMeta.empty 0).record.getD rec0).thumbnail = none ∧
    ((processFile cfgS3 envThumbUploadFails fileVid ("u1.mp4".toList)
        FileMeta.empty 0).record.getD rec0).dimensions = some ⟨640, 480⟩ ∧
    (processFile cfgS3 envThumbUploadFails fileVid ("u1.mp4".toList)
        FileMeta.empty 0).record.isSome = true := by
  decide

/-- C4 (amended): thumbnail and dimensions are derived under independent
error handling, so either can be present without the other: in any created
video record, the thumbnail is present exactly when thumbnail generation
(and, in S3 mode, the thumbnail upload) succeeded, while the dimensions are
exactly the probe's result (falling back to the metadata-supplied dimensions
only when the probe rejects). -/
theorem c4_thumbnail_dimensions_independent (cfg : ServerConfig) (env : FileEnv)
    (f : UploadFile) (fn : Str) (fm : FileMeta) (t : Nat) (r : MediaRecord)
    (hv : isVideo f = true)
    (hr : (processFile cfg env f fn fm t).record = some r) :
    r.thumbnail.isSome = (env.thumbGenOk && (!cfg.s3Enabled || env.thumbUploadOk)) ∧
    r.dimensions = (match env.probe with
      | none => fm.dimensions
      | some d => d) := by
  cases hs : cfg.s3Enabled <;> cases h1 : env.primaryUploadOk <;>
    cases h2 : env.saveOk <;>
    simp [processFile, hs, h1, h2, hv] at hr <;>
    (rw [← hr]; cases h3 : env.thumbGenOk <;> cases h4 : env.thumbUploadOk <;>
      simp [mkRecord, h3, h4, hv])

/-- Witness for C4: in local mode with everything succeeding, the created
video record's thumbnail presence and dimensions match the
characterization. -/
theorem c4_witness :
    ((processFile cfgLocal FileEnv.allOk fileVid ("u1.mp4".toList) FileMeta.empty
        0).record.getD rec0).thumbnail.isSome =
      (FileEnv.allOk.thumbGenOk && (!cfgLocal.s3Enabled || FileEnv.allOk.thumbUploadOk)) ∧
    ((processFile cfgLocal FileEnv.allOk fileVid ("u1.mp4".toList) FileMeta.empty
        0).record.getD rec0).dimensions = (match FileEnv.allOk.probe with
      | none => FileMeta.empty.dimensions
      | some d => d) :=
  c4_thumbnail_dimensions_independent cfgLocal FileEnv.allOk fileVid ("u1.mp4".toList)
    FileMeta.empty 0
    ((processFile cfgLocal FileEnv.allOk fileVid ("u1.mp4".toList) FileMeta.empty
      0).record.getD rec0)
    (by decide) (by decide)

/-! ## C5: deletion and storage-layer failures -/

/-- C5 as stated is false: for a local-storage record whose file exists but
whose `unlinkSync` throws, the request fails with a 500 and the record stays
in the store — the storage failure is fatal, not logged-and-ignored. -/
theorem c5_counterexample :
    deleteRequest cfgLocal envUnlinkFails (some ("pw".toList)) ("u1.png".toList) [rec0]
      = (.serverError, [rec0]) := by
  decide

/-- C5 (amended): for records stored on S3 (with S3 enabled) every
storage-layer deletion failure is caught and logged, the record is removed
and the response is success; but for local-storage records an `unlinkSync`
error aborts the request with a 500 and the record is NOT removed — only
the file's absence is tolerated. -/
theorem c5_s3_swallowed_local_fatal (cfg : ServerConfig) (env : DeleteEnv)
    (key : Str) (store : List MediaRecord) (r : MediaRecord) (p : Str)
    (hexp : cfg.uploadPassword = some p)
    (hfind : findMedia store key = some r) :
    ((r.storageType = "s3".toList ∧ cfg.s3Enabled = true) →
      deleteRequest cfg env (some p) key store = (.ok, removeFirstBy key store)) ∧
    (¬(r.storageType = "s3".toList ∧ cfg.s3Enabled = true) →
      env.localFileExists = true → env.localUnlinkOk = false →
      deleteRequest cfg env (some p) key store = (.serverError, store)) := by
  simp only [deleteRequest, hexp, hfind]
  rw [if_neg (fun h0 : p ≠ p => h0 rfl)]
  constructor
  · intro hs3
    rw [if_pos hs3]
  · intro hns hl hu
    rw [if_neg hns, if_pos ⟨hl, hu⟩]

/-- Witness for C5: deleting the S3-backed record succeeds and removes it
from the store even though the world's S3 deletions are irrelevant. -/
theorem c5_witness :
    deleteRequest cfgS3 envUnlinkFails (some ("pw".toList)) ("s1.png".toList) [recS3]
      = (.ok, removeFirstBy ("s1.png".toList) [recS3]) :=
  (c5_s3_swallowed_local_fatal cfgS3 envUnlinkFails ("s1.png".toList) [recS3] recS3
    ("pw".toList) (by decide) (by decide)).1 (by decide)

/-! ## C9: the update surface mutates only the allowed fields -/

/-- C9: an authenticated `PUT /api/files/:key` on an unknown key yields 404
with the store unchanged; on an existing key it rewrites exactly the first
matching record through `applyUpdate`, and `applyUpdate` can change only
`name`, `location`, `tags`, `photographer`, and `date` — every storage and
intrinsic field (`originalName`, `filename`, `url`, `thumbnail`,
`storageType`, `size`, `mimetype`, `dimensions`, `uploadedAt`, `type`) is
unchanged. -/
theorem c9_update_only_allowed_fields (cfg : ServerConfig) (b : UpdateBody)
    (key : Str) (store : List MediaRecord) (p : Str)
    (hp : b.password = some p) (hexp : cfg.uploadPassword = some p) :
    (findMedia store key = none → putRequest cfg b key store = (.notFound, store)) ∧
    (∀ r, findMedia store key = some r →
      putRequest cfg b key store = (.ok, updateFirstBy key (applyUpdate b) store)) ∧
    (∀ r : MediaRecord,
      (applyUpdate b r).originalName = r.originalName ∧
      (applyUpdate b r).filename = r.filename ∧
      (applyUpdate b r).url = r.url ∧
      (applyUpdate b r).thumbnail = r.thumbnail ∧
      (applyUpdate b r).storageType = r.storageType ∧
      (applyUpdate b r).size = r.size ∧
      (applyUpdate b r).mimetype = r.mimetype ∧
      (applyUpdate b r).dimensions = r.dimensions ∧
      (applyUpdate b r).uploadedAt = r.uploadedAt ∧
      (applyUpdate b r).type = r.type) := by
  refine ⟨?_, ?_, ?_⟩
  · intro hn
    simp only [putRequest, hp, hexp, hn]
    rw [if_neg (fun h0 : p ≠ p => h0 rfl)]
  · intro r hr
    simp only [putRequest, hp, hexp, hr]
    rw [if_neg (fun h0 : p ≠ p => h0 rfl)]
  · intro r
    simp [applyUpdate]

/-- Witness for C9: updating the stored record with a full body succeeds
and leaves its filename untouched. -/
theorem c9_witness :
    putRequest cfgLocal body0 ("u1.png".toList) [rec0]
      = (.ok, updateFirstBy ("u1.png".toList) (applyUpdate body0) [rec0]) ∧
    (applyUpdate body0 rec0).filename = rec0.filename :=
  have h := c9_update_only_allowed_fields cfgLocal body0 ("u1.png".toList) [rec0]
    ("pw".toList) (by decide) (by decide)
  ⟨h.2.1 rec0 (by decide), (h.2.2 rec0).2.1⟩

/-! ## C6: migration mutates nothing before `exists()` confirms the upload -/

/-- C6: when the local file exists, the upload succeeds at the transport
level, but the immediate `existsInS3` verification reports the object
absent, the migration counts the file as failed and leaves the record
exactly as it was — in particular `url` and `storageType` are unchanged. -/
theorem c6_verify_gates_update (s3cfg : S3Config) (env : MigrationEnv)
    (media : MediaRecord)
    (h1 : env.localExists = true) (h2 : env.uploadPrimaryOk = true)
    (h3 : env.primaryExists = false) :
    (migrateOne .normal s3cfg env media).outcome = .failed ∧
    (migrateOne .normal s3cfg env media).record = media ∧
    (migrateOne .normal s3cfg env media).record.url = media.url ∧
    (migrateOne .normal s3cfg env media).record.storageType = media.storageType := by
  simp [migrateOne, h1, h2, h3]

/-- Witness for C6: the verification-failure world leaves the stored video
record untouched and counts it failed. -/
theorem c6_witness :
    (migrateOne .normal s3cfg0 envMigVerifyFails recVid).outcome = .failed ∧
    (migrateOne .normal s3cfg0 envMigVerifyFails recVid).record = recVid ∧
    (migrateOne .normal s3cfg0 envMigVerifyFails recVid).record.url = recVid.url ∧
    (migrateOne .normal s3cfg0 envMigVerifyFails recVid).record.storageType =
      recVid.storageType :=
  c6_verify_gates_update s3cfg0 envMigVerifyFails recVid (by decide) (by decide) (by decide)

/-! ## C3: what is verified before the record rewrite -/

/-- C3 as stated is false: in a fully successful migration of a record with
a local thumbnail, the record's `url`/`storageType`/`thumbnail` are all
rewritten, yet the effect trace contains no `existsInS3` check for the
thumbnail key — only the primary is verified. -/
theorem c3_counterexample :
    (migrateOne .normal s3cfg0 envMigAllOk recVid).outcome = .success ∧
    (migrateOne .normal s3cfg0 envMigAllOk recVid).record.url ≠ recVid.url ∧
    (migrateOne .normal s3cfg0 envMigAllOk recVid).record.storageType = "s3".toList ∧
    (migrateOne .normal s3cfg0 envMigAllOk recVid).record.thumbnail ≠ recVid.thumbnail ∧
    FsOp.s3Head ("thumbnails/u1.jpg".toList) ∉
      (migrateOne .normal s3cfg0 envMigAllOk recVid).ops := by
  decide

/-- C3 (amended): whenever a normal-mode migration step rewrites a record
(performs its `dbUpdate`), the primary object's `existsInS3` verification
has succeeded, and that verification (`s3Head` of the primary key) appears
in the effect trace strictly before the rewrite; the thumbnail's remote
existence is never verified. -/
theorem c3_update_after_primary_verification (s3cfg : S3Config) (env : MigrationEnv)
    (media : MediaRecord)
    (h : FsOp.dbUpdate media.filename ∈ (migrateOne .normal s3cfg env media).ops) :
    env.primaryExists = true ∧
    FsOp.s3Head media.filename ∈
      (migrateOne .normal s3cfg env media).ops.takeWhile
        (fun op => !isDbUpdate media.filename op) := by
  cases hl : env.localExists with
  | false => simp [migrateOne, hl] at h
  | true =>
    cases hu : env.uploadPrimaryOk with
    | false => simp [migrateOne, hl, hu] at h
    | true =>
      cases hv : env.primaryExists with
      | false => simp [migrateOne, hl, hu, hv] at h
      | true =>
        refine ⟨rfl, ?_⟩
        cases ht : media.thumbnail with
        | none =>
          simp [migrateOne, hl, hu, hv, ht, finishUpdate, isDbUpdate, List.takeWhile]
        | some t =>
          by_cases hpt : thumbUrlMarker.isPrefixOf t
          · cases hte : env.thumbLocalExists with
            | false =>
              simp [migrateOne, hl, hu, hv, ht, hpt, hte, finishUpdate, isDbUpdate,
                List.takeWhile]
            | true =>
              cases htu : env.uploadThumbOk with
              | false => simp [migrateOne, hl, hu, hv, ht, hpt, hte, htu] at h
              | true =>
                simp [migrateOne, hl, hu, hv, ht, hpt, hte, htu, finishUpdate,
                  isDbUpdate, List.takeWhile]
          · simp [migrateOne, hl, hu, hv, ht, hpt, finishUpdate, isDbUpdate,
              List.takeWhile]

/-- Witness for C3: the fully successful migration of the video record
performed its primary `s3Head` before the `dbUpdate`. -/
theorem c3_witness :
    envMigAllOk.primaryExists = true ∧
    FsOp.s3Head recVid.filename ∈
      (migrateOne .normal s3cfg0 envMigAllOk recVid).ops.takeWhile
        (fun op => !isDbUpdate recVid.filename op) :=
  c3_update_after_primary_verification s3cfg0 envMigAllOk recVid (by decide)

/-! ## C8: the migration utility never deletes local files -/

theorem migrateOne_all_no_unlink (mode : MigMode) (s3cfg : S3Config)
    (env : MigrationEnv) (media : MediaRecord) :
    ((migrateOne mode s3cfg env media).ops.all (fun op => !op.isUnlink)) = true := by
  unfold migrateOne finishUpdate
  repeat' split
  all_goals rfl

/-- C8: in every mode and for every store and world, the migration run's
effect trace contains no file deletion at all — in particular no local file
under the uploads directory is ever deleted. -/
theorem c8_never_deletes_local_files (mode : MigMode) (s3cfg : S3Config)
    (env : Nat → MigrationEnv) (store : List MediaRecord) :
    ((migrateRun mode s3cfg env store).ops.all (fun op => !op.isUnlink)) = true := by
  cases mode with
  | verifyOnly =>
    simp only [migrateRun]
    rw [List.all_eq_true]
    intro op hop
    simp only [verifyRun, List.mem_map] at hop
    obtain ⟨r, _, rfl⟩ := hop
    rfl
  | normal =>
    simp only [migrateRun]
    rw [List.all_eq_true]
    intro op hop
    simp only [backupWrites, List.mem_append, List.mem_flatten, List.mem_map] at hop
    rcases hop with hb | ⟨l, ⟨step, hstep, rfl⟩, hop⟩
    · simp at hb
      subst hb
      rfl
    · simp only [migrateSteps, List.mem_map] at hstep
      obtain ⟨q, _, rfl⟩ := hstep
      have hall := migrateOne_all_no_unlink .normal s3cfg (env q.1) q.2
      rw [List.all_eq_true] at hall
      exact hall op hop
  | dryRun =>
    simp only [migrateRun]
    rw [List.all_eq_true]
    intro op hop
    simp only [backupWrites, List.mem_append, List.mem_flatten, List.mem_map] at hop
    rcases hop with hb | ⟨l, ⟨step, hstep, rfl⟩, hop⟩
    · simp at hb
    · simp only [migrateSteps, List.mem_map] at hstep
      obtain ⟨q, _, rfl⟩ := hstep
      have hall := migrateOne_all_no_unlink .dryRun s3cfg (env q.1) q.2
      rw [List.all_eq_true] at hall
      exact hall op hop

/-! ## C7: the computed public S3 URL -/

/-- C7: for an endpoint `https://E` (with `E` free of any embedded scheme),
the computed public URL is exactly `https://E/T:B/K` when a tenant id `T`
is configured and exactly `https://E/B/K` otherwise; and every record the
upload pipeline creates in S3 mode carries a `url` obtained from `getS3Url`
— the pipeline never assembles the URL itself. -/
theorem c7_public_url_format (host tenant bucket key : Str)
    (hclean : containsSub ("http://".toList) host = false) :
    (tenant ≠ [] →
      getS3Url ⟨"https://".toList ++ host, tenant, bucket⟩ key =
        "https://".toList ++ host ++ ['/'] ++ tenant ++ [':'] ++ bucket
          ++ ['/'] ++ key) ∧
    (tenant = [] →
      getS3Url ⟨"https://".toList ++ host, tenant, bucket⟩ key =
        "https://".toList ++ host ++ ['/'] ++ bucket ++ ['/'] ++ key) ∧
    (∀ (c : ServerConfig) (e : FileEnv) (f : UploadFile) (fn : Str) (fm : FileMeta)
      (t : Nat) (r : MediaRecord), c.s3Enabled = true →
      (processFile c e f fn fm t).record = some r → r.url = getS3Url c.s3cfg fn) := by
  have hbase := getS3Url_stripped host hclean
    ⟨"https://".toList ++ host, tenant, bucket⟩ rfl key
  refine ⟨?_, ?_, ?_⟩
  · intro hne
    rw [hbase, if_neg hne]
  · intro he
    rw [hbase, if_pos he]
  · intro c e f fn fm t r hs hr
    cases h1 : e.primaryUploadOk <;> cases h2 : e.saveOk <;>
      simp [processFile, hs, h1, h2] at hr <;> (rw [← hr]; simp [mkRecord])

/-- Witness for C7: the Contabo-style endpoint, tenant `tid`, bucket `bkt`,
key `k.png` produce exactly the tenant-qualified URL. -/
theorem c7_witness :
    getS3Url ⟨"https://".toList ++ "eu2.contabostorage.com".toList, "tid".toList,
        "bkt".toList⟩ ("k.png".toList) =
      "https://".toList ++ "eu2.contabostorage.com".toList ++ ['/'] ++ "tid".toList
        ++ [':'] ++ "bkt".toList ++ ['/'] ++ "k.png".toList :=
  (c7_public_url_format ("eu2.contabostorage.com".toList) ("tid".toList)
    ("bkt".toList) ("k.png".toList) (by decide)).1 (by decide)

end WmGallery
